import Mathlib

/-!
Shallow embedding of the headshot-studio core (ProjectService,
ClaudeVisionService, ReplicateService) from the sprukersocial repository.

The persistence store is a record of entity tables; external providers are
passed in as explicit oracles (a call either returns the oracle's value or,
for the fallible providers, an `Except.error` mirroring a thrown exception).
Every operation returns the caller-visible result, the updated store, and
the trace of external-provider calls it issued.
-/

namespace HeadshotStudio

/-- Categorical grade returned by the vision provider for each of the five
feedback dimensions (claude-vision.service.ts). -/
inductive Grade
  | excellent
  | good
  | poor
deriving DecidableEq, Repr

/-- The five named per-photo feedback fields (lighting, background,
expression, angle, focus). -/
structure Feedback where
  lighting : Grade
  background : Grade
  expression : Grade
  angle : Grade
  focus : Grade
deriving DecidableEq, Repr

/-- Result of analyzing one photo (PhotoAnalysisResult in the shared types).
Scores are on a 0-10 scale; we use exact rationals for the numeric values. -/
structure PhotoAnalysisResult where
  qualityScore : Rat
  feedback : Feedback
  suggestions : List String
  approved : Bool
deriving DecidableEq, Repr

/-- The fixed neutral fallback `ClaudeVisionService.analyzePhoto` returns when
the provider call (or response parsing) fails: score 7.0, all five fields
good, approved. -/
def defaultAnalysis : PhotoAnalysisResult :=
  { qualityScore := 7
    feedback :=
      { lighting := Grade.good
        background := Grade.good
        expression := Grade.good
        angle := Grade.good
        focus := Grade.good }
    suggestions := ["Photo looks good for headshot generation"]
    approved := true }

/-- `ClaudeVisionService.analyzePhoto`: the whole provider interaction
(request, response-type check, JSON extraction, parse) sits inside one
try/catch, so it is modelled as an oracle returning either a parsed result
or an error; on error the fixed neutral `defaultAnalysis` is returned. -/
def analyzePhoto (vision : String → Except String PhotoAnalysisResult)
    (imageUrl : String) : PhotoAnalysisResult :=
  match vision imageUrl with
  | Except.ok r => r
  | Except.error _ => defaultAnalysis

/-- One coaching suggestion produced by the rule-based aggregation. -/
structure Suggestion where
  type : String
  title : String
  description : String
  priority : Nat
deriving DecidableEq, Repr

/-- Per-dimension counts of photos graded poor
(the `issues` accumulator in `generateCoachingSuggestions`). -/
structure IssueCounts where
  lighting : Nat
  background : Nat
  expression : Nat
  angle : Nat
  focus : Nat
deriving DecidableEq, Repr

/-- Count, for every dimension, how many results grade it poor. -/
def countIssues (results : List PhotoAnalysisResult) : IssueCounts :=
  { lighting := results.countP (fun r => r.feedback.lighting == Grade.poor)
    background := results.countP (fun r => r.feedback.background == Grade.poor)
    expression := results.countP (fun r => r.feedback.expression == Grade.poor)
    angle := results.countP (fun r => r.feedback.angle == Grade.poor)
    focus := results.countP (fun r => r.feedback.focus == Grade.poor) }

def lightingSuggestion : Suggestion :=
  { type := "LIGHTING"
    title := "Improve Your Lighting"
    description := "Many of your photos have lighting issues. Try facing a window or using natural light."
    priority := 1 }

def backgroundSuggestion : Suggestion :=
  { type := "BACKGROUND"
    title := "Better Background Needed"
    description := "Use a plain, neutral wall or background. Avoid busy or cluttered areas."
    priority := 1 }

def expressionSuggestion : Suggestion :=
  { type := "EXPRESSION"
    title := "Natural Expression Tips"
    description := "Your expressions could be more natural. Relax and think of something pleasant!"
    priority := 2 }

def angleSuggestion : Suggestion :=
  { type := "ANGLE"
    title := "Camera Angle Suggestions"
    description := "Try positioning the camera at eye level for the most flattering angle."
    priority := 2 }

def quantitySuggestion : Suggestion :=
  { type := "QUANTITY"
    title := "Upload More Photos"
    description := "We recommend at least 15-20 photos for the best results. More variety = better headshots!"
    priority := 1 }

/-- `ClaudeVisionService.generateCoachingSuggestions`: rule-based aggregation.
The source compares `count > totalPhotos * 0.3` with IEEE doubles; for any
photo count below the JS array-length bound that comparison on integers
agrees exactly with the rational comparison `10 * count > 3 * total`, which
is how the threshold is stated here. Note the source checks only the
lighting, background, expression and angle counters; the focus counter is
accumulated but no suggestion is ever pushed for it. -/
def generateCoachingSuggestions (results : List PhotoAnalysisResult) :
    List Suggestion :=
  let issues := countIssues results
  let totalPhotos := results.length
  (if 10 * issues.lighting > 3 * totalPhotos then [lightingSuggestion] else []) ++
  (if 10 * issues.background > 3 * totalPhotos then [backgroundSuggestion] else []) ++
  (if 10 * issues.expression > 3 * totalPhotos then [expressionSuggestion] else []) ++
  (if 10 * issues.angle > 3 * totalPhotos then [angleSuggestion] else []) ++
  (if totalPhotos < 15 then [quantitySuggestion] else [])

/-- Band selector of `generateOverallFeedback`: the source interpolates the
photo count and the 1-decimal score into one of four sentence templates; the
claims depend only on which template is chosen, so the band keyword stands
for the template. -/
def overallFeedbackBand (averageScore : Rat) : String :=
  if averageScore ≥ (8.5 : Rat) then "excellent"
  else if averageScore ≥ (7 : Rat) then "good"
  else if averageScore ≥ (5.5 : Rat) then "acceptable"
  else "needs improvement"

/-- Aggregate result of `ClaudeVisionService.analyzePhotoSet`. -/
structure SetAnalysis where
  individualResults : List PhotoAnalysisResult
  averageScore : Rat
  overallFeedback : String
  coachingSuggestions : List Suggestion
deriving DecidableEq, Repr

/-- `ClaudeVisionService.analyzePhotoSet`: analyze each photo (with the
per-photo fallback), average the scores, aggregate coaching suggestions. -/
def analyzePhotoSet (vision : String → Except String PhotoAnalysisResult)
    (imageUrls : List String) : SetAnalysis :=
  let results := imageUrls.map (analyzePhoto vision)
  let averageScore :=
    (results.map (fun r => r.qualityScore)).sum / (results.length : Rat)
  { individualResults := results
    averageScore := averageScore
    overallFeedback := overallFeedbackBand averageScore
    coachingSuggestions := generateCoachingSuggestions results }

/-! ## Persistence store (prisma schema rows) -/

/-- Project lifecycle status enum. -/
inductive ProjectStatus
  | uploading
  | analyzing
  | ready
  | training
  | generatingPreview
  | previewReady
  | generatingFull
  | completed
  | failed
deriving DecidableEq, Repr

/-- TrainingModel lifecycle status enum. -/
inductive ModelStatus
  | pending
  | training
  | completed
  | failed
deriving DecidableEq, Repr

/-- Project row. `analysisResults` keeps the stored JSON blob
(overall feedback band plus individual scores). Timestamps are abstract
naturals threaded into the operations that call `new Date()`. -/
structure Project where
  id : Nat
  userId : Nat
  name : String
  style : Option String
  background : Option String
  customBrand : Option String
  status : ProjectStatus
  qualityScore : Option Rat
  analysisResults : Option (String × List Rat)
  photoCount : Nat
  totalGenerated : Nat
  previewGenerated : Bool
  completedAt : Option Nat
deriving DecidableEq, Repr

/-- UploadedPhoto row. -/
structure UploadedPhoto where
  id : Nat
  projectId : Nat
  originalUrl : String
  thumbnailUrl : String
  cloudinaryId : Option String
  qualityScore : Rat
  feedback : Feedback
  isApproved : Bool
  width : Nat
  height : Nat
  fileSize : Nat
  mimeType : String
deriving DecidableEq, Repr

/-- TrainingModel row. -/
structure TrainingModel where
  id : Nat
  projectId : Nat
  replicateId : String
  status : ModelStatus
  progress : Rat
  modelUrl : Option String
  triggerWord : String
  error : Option String
  startedAt : Option Nat
  completedAt : Option Nat
deriving DecidableEq, Repr

/-- Headshot row. -/
structure Headshot where
  id : Nat
  projectId : Nat
  imageUrl : String
  thumbnailUrl : String
  cloudinaryId : Option String
  prompt : String
  style : String
  background : String
  isPreview : Bool
  isTopPick : Bool
  aiQualityScore : Option Rat
  width : Nat
  height : Nat
deriving DecidableEq, Repr

/-- CoachingFeedback row. -/
structure CoachingFeedback where
  id : Nat
  projectId : Nat
  type : String
  title : String
  description : String
  suggestions : List String
  priority : Nat
  isResolved : Bool
deriving DecidableEq, Repr

/-- The relational store. `nextId` is the id allocator shared by all
tables (ids therefore also record creation order). -/
structure DB where
  projects : List Project
  photos : List UploadedPhoto
  trainingModels : List TrainingModel
  headshots : List Headshot
  coaching : List CoachingFeedback
  nextId : Nat
deriving DecidableEq, Repr

/-- `prisma.project.findFirst({ where: { id, userId } })` — the row-level
ownership lookup every operation starts with. -/
def findProject (db : DB) (projectId userId : Nat) : Option Project :=
  db.projects.find? (fun p => p.id == projectId && p.userId == userId)

/-- The `uploadedPhotos` relation of a project. -/
def projectPhotos (db : DB) (projectId : Nat) : List UploadedPhoto :=
  db.photos.filter (fun p => p.projectId == projectId)

/-- The one-to-one `trainingModel` relation of a project. -/
def findTrainingModel (db : DB) (projectId : Nat) : Option TrainingModel :=
  db.trainingModels.find? (fun t => t.projectId == projectId)

/-- The `headshots` relation of a project. -/
def projectHeadshots (db : DB) (projectId : Nat) : List Headshot :=
  db.headshots.filter (fun h => h.projectId == projectId)

/-- `prisma.project.update({ where: { id } })` with update function `f`. -/
def updateProjectRow (db : DB) (projectId : Nat) (f : Project → Project) : DB :=
  { db with projects := db.projects.map (fun p => if p.id == projectId then f p else p) }

/-- `prisma.trainingModel.update({ where: { id } })` with update function `f`. -/
def updateTrainingModelRow (db : DB) (id : Nat) (f : TrainingModel → TrainingModel) : DB :=
  { db with trainingModels := db.trainingModels.map (fun t => if t.id == id then f t else t) }

/-- JS `value || fallback` on an optional string: both null/undefined and
the empty string are falsy. -/
def jsOr (v : Option String) (d : String) : String :=
  match v with
  | some s => if s = "" then d else s
  | none => d

/-! ## External providers -/

/-- Value returned by `CloudinaryService.uploadFromUrl`. -/
structure CloudinaryUpload where
  secureUrl : String
  publicId : String
  width : Nat
  height : Nat
  bytes : Nat
  format : String
deriving DecidableEq, Repr

/-- Raw training object returned by the Replicate API
(`replicate.trainings.get`), as consumed by `getTrainingStatus` and
`calculateProgress`. -/
structure ReplicateTraining where
  status : String
  metricsStep : Option Nat
  metricsTotalSteps : Option Nat
  error : Option String
  outputVersion : Option String
deriving DecidableEq, Repr

/-- Progress defaults used when no usable metrics are present. -/
def defaultStatusProgress (status : String) : Rat :=
  if status = "processing" then 50
  else if status = "starting" then 10
  else 0

/-- `ReplicateService.calculateProgress`. The JS guard
`training.metrics?.step && training.metrics?.total_steps` is truthiness:
a missing or zero step/total falls through to the per-status default. -/
def calculateProgress (t : ReplicateTraining) : Rat :=
  if t.status = "succeeded" then 100
  else if t.status = "failed" ∨ t.status = "canceled" then 0
  else
    match t.metricsStep, t.metricsTotalSteps with
    | some step, some total =>
        if step ≠ 0 ∧ total ≠ 0 then ((step : Rat) / (total : Rat)) * 100
        else defaultStatusProgress t.status
    | _, _ => defaultStatusProgress t.status

/-- The external capability oracles the ProjectService composes. Fallible
providers (training submission, generation batches) return `Except`; an
`Except.error` stands for the wrapped exception the service rethrows.
`upload`/`thumbnail` model the storage provider on runs where every storage
call succeeds (the batch loops issue them inside `Promise.all`, so a
mid-batch storage failure leaves a nondeterministic partial commit outside
this deterministic fragment; every claim below conditions on storage
success). -/
structure Providers where
  vision : String → Except String PhotoAnalysisResult
  upload : String → CloudinaryUpload
  thumbnail : String → String
  train : List String → Except String String
  generateFull : String → Nat → Except String (List String)
  generatePreviewImgs : String → String → Except String (List String)
  deleteImage : String → Bool

/-- Modelled from the spec: the `CloudinaryService.deleteImage` implementation
(apps/headshot-studio/src/services/cloudinary.service.ts) is not among the
provided sources. Spec section 6 specifies `ObjectStorage.delete(publicId) →
boolean` as best-effort: a failed deletion is reported as a `false` return
value and must not abort the caller, so the call is modelled as a total
Bool-valued oracle that never throws. (The sibling service in
src/server/services/imageStorageService.ts implements exactly this contract:
it catches the provider error and returns false.) -/
def deleteImageCall (providers : Providers) (publicId : String) : Bool :=
  providers.deleteImage publicId

/-- Trace entry for one external-provider call. -/
inductive ProviderCall
  | uploadFromUrl (url : String)
  | generateThumbnail (url : String)
  | visionAnalyze (url : String)
  | trainModel (photoUrls : List String)
  | getTrainingStatus (replicateId : String)
  | generate (style : String) (numOutputs : Nat)
  | deleteImage (publicId : String)
deriving DecidableEq, Repr

deriving instance DecidableEq for Except

/-- What one service operation produces: the caller-visible result (an
`Except.error` models the thrown error message), the store after the
operation, and the external calls issued. -/
structure OpResult (α : Type) where
  res : Except String α
  db : DB
  calls : List ProviderCall
deriving DecidableEq, Repr

/-! ## ProjectService operations -/

/-- Payload returned by `getProject` (project plus included relations). -/
structure ProjectDetails where
  project : Project
  uploadedPhotos : List UploadedPhoto
  trainingModel : Option TrainingModel
  headshots : List Headshot
  coaching : List CoachingFeedback
deriving DecidableEq, Repr

/-- `ProjectService.getProject`: ownership-scoped read returning the project
with its relations (top-pick headshots capped at 20, unresolved coaching).
The priority display ordering of the coaching include is presentation only
and not modelled. -/
def getProject (db : DB) (projectId userId : Nat) : OpResult ProjectDetails :=
  match findProject db projectId userId with
  | none => ⟨Except.error "Project not found", db, []⟩
  | some p =>
      ⟨Except.ok
        { project := p
          uploadedPhotos := projectPhotos db projectId
          trainingModel := findTrainingModel db projectId
          headshots :=
            (db.headshots.filter (fun h => h.projectId == projectId && h.isTopPick)).take 20
          coaching := db.coaching.filter (fun c => c.projectId == projectId && !c.isResolved) },
        db, []⟩

/-- UpdateProjectInput: absent fields are left unchanged by the prisma
update (undefined fields are skipped). -/
structure UpdateProjectInput where
  name : Option String
  style : Option String
  background : Option String
  customBrand : Option String
deriving DecidableEq, Repr

/-- `ProjectService.updateProject`. -/
def updateProject (db : DB) (projectId userId : Nat) (data : UpdateProjectInput) :
    OpResult Project :=
  match findProject db projectId userId with
  | none => ⟨Except.error "Project not found", db, []⟩
  | some p =>
      let f : Project → Project := fun pr =>
        { pr with
            name := data.name.getD pr.name
            style := match data.style with | some s => some s | none => pr.style
            background := match data.background with | some b => some b | none => pr.background
            customBrand := match data.customBrand with | some c => some c | none => pr.customBrand }
      ⟨Except.ok (f p), updateProjectRow db projectId f, []⟩

/-- `ProjectService.uploadPhoto`: ownership check, storage upload, thumbnail,
per-photo vision analysis (with its internal fallback), photo row insert,
photo-count increment. -/
def uploadPhoto (db : DB) (providers : Providers) (projectId userId : Nat)
    (imageUrl : String) : OpResult (UploadedPhoto × PhotoAnalysisResult) :=
  match findProject db projectId userId with
  | none => ⟨Except.error "Project not found", db, []⟩
  | some _ =>
      let uploaded := providers.upload imageUrl
      let thumbnailUrl := providers.thumbnail uploaded.secureUrl
      let analysis := analyzePhoto providers.vision uploaded.secureUrl
      let photo : UploadedPhoto :=
        { id := db.nextId
          projectId := projectId
          originalUrl := uploaded.secureUrl
          thumbnailUrl := thumbnailUrl
          cloudinaryId := some uploaded.publicId
          qualityScore := analysis.qualityScore
          feedback := analysis.feedback
          isApproved := analysis.approved
          width := uploaded.width
          height := uploaded.height
          fileSize := uploaded.bytes
          mimeType := uploaded.format }
      let db1 := { db with photos := db.photos ++ [photo], nextId := db.nextId + 1 }
      let db2 := updateProjectRow db1 projectId (fun p => { p with photoCount := p.photoCount + 1 })
      ⟨Except.ok (photo, analysis), db2,
        [ProviderCall.uploadFromUrl imageUrl,
         ProviderCall.generateThumbnail uploaded.secureUrl,
         ProviderCall.visionAnalyze uploaded.secureUrl]⟩

/-- `prisma.coachingFeedback.create` for one suggestion. -/
def insertCoaching (projectId : Nat) (db : DB) (s : Suggestion) : DB :=
  { db with
      coaching := db.coaching ++
        [{ id := db.nextId
           projectId := projectId
           type := s.type
           title := s.title
           description := s.description
           suggestions := []
           priority := s.priority
           isResolved := false }]
      nextId := db.nextId + 1 }

/-- Value returned by `analyzeProjectPhotos`. -/
structure AnalyzeReturn where
  averageScore : Rat
  feedback : String
  coaching : List Suggestion
deriving DecidableEq, Repr

/-- `ProjectService.analyzeProjectPhotos`: requires an owned project with at
least one photo, batch-analyzes all photo URLs, persists one
CoachingFeedback row per suggestion, then stores the mean score and the
analysis blob and advances the status to ready. -/
def analyzeProjectPhotos (db : DB) (providers : Providers) (projectId userId : Nat) :
    OpResult AnalyzeReturn :=
  match findProject db projectId userId with
  | none => ⟨Except.error "Project not found", db, []⟩
  | some _ =>
      let photos := projectPhotos db projectId
      if photos.isEmpty then ⟨Except.error "No photos uploaded yet", db, []⟩
      else
        let photoUrls := photos.map (fun p => p.originalUrl)
        let analysis := analyzePhotoSet providers.vision photoUrls
        let db1 := analysis.coachingSuggestions.foldl (insertCoaching projectId) db
        let db2 := updateProjectRow db1 projectId (fun p =>
          { p with
              qualityScore := some analysis.averageScore
              analysisResults := some
                (analysis.overallFeedback,
                 analysis.individualResults.map (fun r => r.qualityScore))
              status := ProjectStatus.ready })
        ⟨Except.ok
          { averageScore := analysis.averageScore
            feedback := analysis.overallFeedback
            coaching := analysis.coachingSuggestions },
          db2, photoUrls.map (fun u => ProviderCall.visionAnalyze u)⟩

/-- Value returned by `startTraining`. -/
structure StartTrainingReturn where
  trainingId : String
  model : TrainingModel
deriving DecidableEq, Repr

/-- `ProjectService.startTraining`: requires an owned project with at least
10 uploaded photos; submits the approved photo URLs to the training
provider, creates the TrainingModel row in training status, and sets the
project status to generatingPreview (the optimistic staging write the source
performs). TrainingModel columns not named in the create take their schema
defaults (progress 0, trigger word TOK). -/
def startTraining (db : DB) (providers : Providers) (projectId userId now : Nat) :
    OpResult StartTrainingReturn :=
  match findProject db projectId userId with
  | none => ⟨Except.error "Project not found", db, []⟩
  | some _ =>
      let photos := projectPhotos db projectId
      if photos.length < 10 then
        ⟨Except.error "Need at least 10 photos to train model", db, []⟩
      else
        let approvedPhotos := photos.filter (fun p => p.isApproved)
        let photoUrls := approvedPhotos.map (fun p => p.originalUrl)
        match providers.train photoUrls with
        | Except.error e =>
            ⟨Except.error ("Failed to start model training: " ++ e), db,
              [ProviderCall.trainModel photoUrls]⟩
        | Except.ok trainingId =>
            let model : TrainingModel :=
              { id := db.nextId
                projectId := projectId
                replicateId := trainingId
                status := ModelStatus.training
                progress := 0
                modelUrl := none
                triggerWord := "TOK"
                error := none
                startedAt := some now
                completedAt := none }
            let db1 := { db with
              trainingModels := db.trainingModels ++ [model]
              nextId := db.nextId + 1 }
            let db2 := updateProjectRow db1 projectId (fun p =>
              { p with status := ProjectStatus.generatingPreview })
            ⟨Except.ok { trainingId := trainingId, model := model }, db2,
              [ProviderCall.trainModel photoUrls]⟩

/-- Value returned by `checkTrainingProgress`. -/
structure PollReturn where
  status : String
  progress : Rat
  modelVersion : Option String
deriving DecidableEq, Repr

/-- `ProjectService.checkTrainingProgress` for one successful provider poll
returning `resp`: maps the provider status onto the local ModelStatus enum,
overwrites progress with the provider-derived `calculateProgress` value, and
updates modelUrl/error/completedAt (prisma skips undefined fields, so absent
provider values leave the stored columns unchanged). The project table is
not touched. -/
def checkTrainingProgress (db : DB) (projectId userId : Nat)
    (resp : ReplicateTraining) (now : Nat) : OpResult PollReturn :=
  match findProject db projectId userId with
  | none => ⟨Except.error "Training not started", db, []⟩
  | some _ =>
    match findTrainingModel db projectId with
    | none => ⟨Except.error "Training not started", db, []⟩
    | some tm =>
        let newStatus :=
          if resp.status = "succeeded" then ModelStatus.completed
          else if resp.status = "failed" then ModelStatus.failed
          else ModelStatus.training
        let progress := calculateProgress resp
        let db1 := updateTrainingModelRow db tm.id (fun t =>
          { t with
              status := newStatus
              progress := progress
              modelUrl := match resp.outputVersion with | some v => some v | none => t.modelUrl
              error := match resp.error with | some e => some e | none => t.error
              completedAt := if resp.status = "succeeded" then some now else t.completedAt })
        ⟨Except.ok
          { status := resp.status, progress := progress, modelVersion := resp.outputVersion },
          db1, [ProviderCall.getTrainingStatus tm.replicateId]⟩

/-- One created headshot row per generated image URL, allocating sequential
ids (each loop iteration uploads to storage, derives a thumbnail and inserts
the row built by `mkRow`). -/
def createHeadshotRows (mkRow : Nat → String → Headshot) :
    DB → List String → DB × List Headshot
  | db, [] => (db, [])
  | db, url :: rest =>
      let h := mkRow db.nextId url
      let db1 := { db with headshots := db.headshots ++ [h], nextId := db.nextId + 1 }
      let r := createHeadshotRows mkRow db1 rest
      (r.1, h :: r.2)

/-- Row built by the preview-generation loop. -/
def mkPreviewHeadshot (providers : Providers) (projectId : Nat)
    (style background : String) (id : Nat) (imageUrl : String) : Headshot :=
  let uploaded := providers.upload imageUrl
  let thumbnail := providers.thumbnail uploaded.secureUrl
  { id := id
    projectId := projectId
    imageUrl := uploaded.secureUrl
    thumbnailUrl := thumbnail
    cloudinaryId := some uploaded.publicId
    prompt := "Preview - " ++ style
    style := style
    background := jsOr (some background) "office"
    isPreview := true
    isTopPick := false
    aiQualityScore := none
    width := uploaded.width
    height := uploaded.height }

/-- `ProjectService.generatePreview`: requires an owned project whose
TrainingModel is completed; generates a fixed batch of 3 preview images,
persists them as preview headshots and marks the project previewReady. -/
def generatePreview (db : DB) (providers : Providers) (projectId userId : Nat)
    (style background : String) : OpResult (List Headshot) :=
  match findProject db projectId userId with
  | none => ⟨Except.error "Project not ready for generation", db, []⟩
  | some _ =>
    match findTrainingModel db projectId with
    | none => ⟨Except.error "Project not ready for generation", db, []⟩
    | some tm =>
      if tm.status ≠ ModelStatus.completed then
        ⟨Except.error "Model training not completed", db, []⟩
      else
        match providers.generatePreviewImgs style background with
        | Except.error e =>
            ⟨Except.error ("Failed to generate preview: " ++ e), db,
              [ProviderCall.generate style 3]⟩
        | Except.ok images =>
            let r := createHeadshotRows
              (mkPreviewHeadshot providers projectId style background) db images
            let db2 := updateProjectRow r.1 projectId (fun p =>
              { p with status := ProjectStatus.previewReady, previewGenerated := true })
            ⟨Except.ok r.2, db2, [ProviderCall.generate style 3]⟩

/-- Row built by the full-set generation loop for one style. -/
def mkFullHeadshot (providers : Providers) (projectId : Nat)
    (style background : String) (id : Nat) (imageUrl : String) : Headshot :=
  let uploaded := providers.upload imageUrl
  let thumbnail := providers.thumbnail uploaded.secureUrl
  { id := id
    projectId := projectId
    imageUrl := uploaded.secureUrl
    thumbnailUrl := thumbnail
    cloudinaryId := some uploaded.publicId
    prompt := style ++ " headshot"
    style := style
    background := background
    isPreview := false
    isTopPick := false
    aiQualityScore := none
    width := uploaded.width
    height := uploaded.height }

/-- The sequential per-style loop of `generateFullSet`: for each style,
request `numPerStyle` images and persist each one; a failed generation call
aborts the loop (rows already persisted by earlier styles remain). -/
def generateStyleBatches (providers : Providers) (projectId : Nat)
    (background : String) (numPerStyle : Nat) :
    DB → List String → DB × Except String (List Headshot)
  | db, [] => (db, Except.ok [])
  | db, style :: rest =>
      match providers.generateFull style numPerStyle with
      | Except.error e => (db, Except.error ("Failed to generate full set: " ++ e))
      | Except.ok images =>
          let r := createHeadshotRows
            (mkFullHeadshot providers projectId style background) db images
          match generateStyleBatches providers projectId background numPerStyle r.1 rest with
          | (db2, Except.error e) => (db2, Except.error e)
          | (db2, Except.ok hs2) => (db2, Except.ok (r.2 ++ hs2))

/-- The batch of per-row top-pick updates: every headshot row whose id is in
`ids` gets isTopPick set and the fixed placeholder quality score 8.5 (the
source issues one `prisma.headshot.update` per picked row; prisma row ids
are unique, so the batch amounts to this single table map). -/
def markTopPicks (db : DB) (ids : List Nat) : DB :=
  { db with
      headshots := db.headshots.map (fun h =>
        if h.id ∈ ids then
          { h with isTopPick := true, aiQualityScore := some (8.5 : Rat) }
        else h) }

/-- Value returned by `generateFullSet` (the source returns the stale
pre-update row objects). -/
structure FullSetReturn where
  headshots : List Headshot
  topPicks : List Headshot
deriving DecidableEq, Repr

/-- `ProjectService.generateFullSet`: requires an owned project whose
TrainingModel is completed; sets status generatingFull, runs the sequential
per-style generation loop, marks the first 20 created rows as top picks,
then completes the project recording the batch size as totalGenerated. -/
def generateFullSet (db : DB) (providers : Providers) (projectId userId : Nat)
    (styles : List String) (numPerStyle : Nat) (now : Nat) : OpResult FullSetReturn :=
  match findProject db projectId userId with
  | none => ⟨Except.error "Project not ready", db, []⟩
  | some project =>
    match findTrainingModel db projectId with
    | none => ⟨Except.error "Project not ready", db, []⟩
    | some tm =>
      if tm.status ≠ ModelStatus.completed then
        ⟨Except.error "Model not ready", db, []⟩
      else
        let db1 := updateProjectRow db projectId (fun p =>
          { p with status := ProjectStatus.generatingFull })
        let background := jsOr project.background "office"
        match generateStyleBatches providers projectId background numPerStyle db1 styles with
        | (db2, Except.error e) =>
            ⟨Except.error e, db2, styles.map (fun s => ProviderCall.generate s numPerStyle)⟩
        | (db2, Except.ok allHeadshots) =>
            let topPicks := allHeadshots.take 20
            let db3 := markTopPicks db2 (topPicks.map (fun h => h.id))
            let db4 := updateProjectRow db3 projectId (fun p =>
              { p with
                  status := ProjectStatus.completed
                  totalGenerated := allHeadshots.length
                  completedAt := some now })
            ⟨Except.ok { headshots := allHeadshots, topPicks := topPicks }, db4,
              styles.map (fun s => ProviderCall.generate s numPerStyle)⟩

/-- `ProjectService.deleteProject`: requires ownership; issues one
best-effort storage deletion per referenced artifact (results ignored), then
deletes the project row with cascading deletes of all child rows. -/
def deleteProject (db : DB) (providers : Providers) (projectId userId : Nat) :
    OpResult Bool :=
  match findProject db projectId userId with
  | none => ⟨Except.error "Project not found", db, []⟩
  | some _ =>
      let photos := projectPhotos db projectId
      let headshots := projectHeadshots db projectId
      let allImages :=
        (photos.map (fun p => p.cloudinaryId) ++ headshots.map (fun h => h.cloudinaryId)).filterMap id
      let _deleted := allImages.map (deleteImageCall providers)
      let db1 : DB :=
        { projects := db.projects.filter (fun p => !(p.id == projectId))
          photos := db.photos.filter (fun p => !(p.projectId == projectId))
          trainingModels := db.trainingModels.filter (fun t => !(t.projectId == projectId))
          headshots := db.headshots.filter (fun h => !(h.projectId == projectId))
          coaching := db.coaching.filter (fun c => !(c.projectId == projectId))
          nextId := db.nextId }
      ⟨Except.ok true, db1, allImages.map (fun i => ProviderCall.deleteImage i)⟩

/-! ## Concrete sample data and derived definitions used by the claim theorems -/

/-- All-good feedback record. -/
def allGoodFeedback : Feedback :=
  { lighting := Grade.good, background := Grade.good, expression := Grade.good,
    angle := Grade.good, focus := Grade.good }

/-- A deterministic provider bundle: uploads echo the source URL, training
and generation succeed, deletions succeed. -/
def stubProviders : Providers :=
  { vision := fun _ => Except.error "provider down"
    upload := fun u =>
      { secureUrl := u, publicId := "pub-" ++ u, width := 512, height := 512,
        bytes := 1000, format := "webp" }
    thumbnail := fun u => "thumb-" ++ u
    train := fun _ => Except.ok "train-1"
    generateFull := fun _ n => Except.ok ((List.range n).map (fun i => "img" ++ toString i))
    generatePreviewImgs := fun _ _ => Except.ok ["pv0", "pv1", "pv2"]
    deleteImage := fun _ => true }

/-- A freshly created project row owned by user 1. -/
def sampleProject : Project :=
  { id := 1, userId := 1, name := "My Headshots", style := none, background := none,
    customBrand := none, status := ProjectStatus.uploading, qualityScore := none,
    analysisResults := none, photoCount := 0, totalGenerated := 0,
    previewGenerated := false, completedAt := none }

/-- An approved uploaded photo row for project 1. -/
def samplePhoto (i : Nat) : UploadedPhoto :=
  { id := i, projectId := 1, originalUrl := "orig" ++ toString i,
    thumbnailUrl := "th" ++ toString i, cloudinaryId := some ("cl" ++ toString i),
    qualityScore := 7, feedback := allGoodFeedback, isApproved := true,
    width := 512, height := 512, fileSize := 1000, mimeType := "image/jpeg" }

/-- Store holding a project with one photo, one headshot, one training model
and one coaching row, used by the deletion witness. -/
def deletionDB : DB :=
  { projects := [sampleProject]
    photos := [samplePhoto 2]
    trainingModels :=
      [{ id := 3, projectId := 1, replicateId := "r1", status := ModelStatus.training,
         progress := 0, modelUrl := none, triggerWord := "TOK", error := none,
         startedAt := some 0, completedAt := none }]
    headshots :=
      [{ id := 4, projectId := 1, imageUrl := "h", thumbnailUrl := "ht",
         cloudinaryId := some "hc", prompt := "p", style := "CORPORATE",
         background := "office", isPreview := true, isTopPick := false,
         aiQualityScore := none, width := 512, height := 512 }]
    coaching :=
      [{ id := 5, projectId := 1, type := "QUANTITY", title := "t", description := "d",
         suggestions := [], priority := 1, isResolved := false }]
    nextId := 10 }

/-- Providers whose every storage deletion fails (returns false). -/
def failingDeleteProviders : Providers :=
  { stubProviders with deleteImage := fun _ => false }

/-- Store holding only a project owned by user 2, probed by caller 1. -/
def foreignDB : DB :=
  { projects := [{ sampleProject with userId := 2 }], photos := [], trainingModels := [],
    headshots := [], coaching := [], nextId := 10 }

/-- A vision result whose only poor grade is focus. -/
def poorFocusResult : PhotoAnalysisResult :=
  { qualityScore := 5
    feedback :=
      { lighting := Grade.good, background := Grade.good, expression := Grade.good,
        angle := Grade.good, focus := Grade.poor }
    suggestions := []
    approved := false }

/-- Concrete vision oracle for the C5 witness: URL "pl" grades poor on
lighting, every other URL is all-good. -/
def c5Vision : String → Except String PhotoAnalysisResult := fun u =>
  if u = "pl" then
    Except.ok { qualityScore := 4
                feedback := { allGoodFeedback with lighting := Grade.poor }
                suggestions := [], approved := false }
  else
    Except.ok { qualityScore := 8, feedback := allGoodFeedback,
                suggestions := [], approved := true }

/-- Concrete 14-photo batch for the C5 witness: 5 poor-lighting photos
(above the 30 percent threshold) and 9 good ones (total below 15). -/
def c5Urls : List String :=
  (List.range 5).map (fun _ => "pl") ++ (List.range 9).map (fun _ => "ok")

/-- Store with an owned ready project and ten approved photos. -/
def dbTenPhotos : DB :=
  { projects := [{ sampleProject with status := ProjectStatus.ready }]
    photos := (List.range 10).map (fun i => samplePhoto (i + 2))
    trainingModels := []
    headshots := []
    coaching := []
    nextId := 100 }

/-- Store with an owned project and a TrainingModel mid-training. -/
def dbPolling : DB :=
  { projects := [{ sampleProject with status := ProjectStatus.ready }]
    photos := []
    trainingModels :=
      [{ id := 5, projectId := 1, replicateId := "r1", status := ModelStatus.training,
         progress := 0, modelUrl := none, triggerWord := "TOK", error := none,
         startedAt := some 0, completedAt := none }]
    headshots := []
    coaching := []
    nextId := 100 }

/-- Non-terminal provider poll with step metrics 80 of 100. -/
def pollWithMetrics : ReplicateTraining :=
  { status := "processing", metricsStep := some 80, metricsTotalSteps := some 100,
    error := none, outputVersion := none }

/-- Non-terminal provider poll with no metrics (falls back to the fixed
processing default of 50). -/
def pollNoMetrics : ReplicateTraining :=
  { status := "processing", metricsStep := none, metricsTotalSteps := none,
    error := none, outputVersion := none }

/-- The CoachingFeedback rows persisted for a suggestion list, with ids
allocated from `n` in order. -/
def coachingRowsFor (projectId : Nat) : Nat → List Suggestion → List CoachingFeedback
  | _, [] => []
  | n, s :: rest =>
      { id := n, projectId := projectId, type := s.type, title := s.title,
        description := s.description, suggestions := [], priority := s.priority,
        isResolved := false } :: coachingRowsFor projectId (n + 1) rest

/-- The batch analysis `analyzeProjectPhotos` runs: `analyzePhotoSet` over
the URLs of the project's photos. -/
def projectAnalysis (db : DB) (providers : Providers) (projectId : Nat) : SetAnalysis :=
  analyzePhotoSet providers.vision ((projectPhotos db projectId).map (fun p => p.originalUrl))

/-- Store with one owned project and a single uploaded photo. -/
def dbAnalyze : DB :=
  { projects := [sampleProject], photos := [samplePhoto 2], trainingModels := [],
    headshots := [], coaching := [], nextId := 10 }

/-- Pure description of the rows the creation loop inserts: one row per URL,
ids allocated sequentially from `n`. -/
def createdRows (mkRow : Nat → String → Headshot) : Nat → List String → List Headshot
  | _, [] => []
  | n, u :: rest => mkRow n u :: createdRows mkRow (n + 1) rest

/-- TrainingModel row in completed status for the generation witnesses. -/
def tmCompleted : TrainingModel :=
  { id := 30, projectId := 1, replicateId := "r1", status := ModelStatus.completed,
    progress := 100, modelUrl := some "m/v", triggerWord := "TOK", error := none,
    startedAt := some 0, completedAt := some 1 }

/-- Store ready for full-set generation. -/
def dbFullSet : DB :=
  { projects := [{ sampleProject with status := ProjectStatus.previewReady }]
    photos := [], trainingModels := [tmCompleted], headshots := [], coaching := []
    nextId := 40 }

/-- Number of top-picked headshot rows stored for a project. -/
def topPickCount (db : DB) (projectId : Nat) : Nat :=
  (db.headshots.filter (fun h => h.projectId == projectId && h.isTopPick)).length

/-- Project row that already completed a first full set. -/
def completedProject : Project :=
  { sampleProject with
      status := ProjectStatus.completed
      totalGenerated := 20
      completedAt := some 1 }

/-- A top-picked headshot row from the first full set. -/
def oldPick (i : Nat) : Headshot :=
  { id := i, projectId := 1, imageUrl := "h", thumbnailUrl := "t", cloudinaryId := some "c",
    prompt := "CORPORATE headshot", style := "CORPORATE", background := "office",
    isPreview := false, isTopPick := true, aiQualityScore := some (8.5 : Rat),
    width := 512, height := 512 }

/-- Store of a project that already holds 20 top picks from a completed
first run. -/
def dbRerun : DB :=
  { projects := [completedProject], photos := [], trainingModels := [tmCompleted],
    headshots := (List.range 20).map oldPick, coaching := [], nextId := 40 }

/-! ## General lemmas about the store helpers -/

/-- A map that does not change the truth of the search predicate commutes
with `find?`. -/
theorem find?_map_pres {α : Type} (l : List α) (g : α → α) (q : α → Bool)
    (h : ∀ a, q (g a) = q a) : (l.map g).find? q = (l.find? q).map g := by
  induction l with
  | nil => rfl
  | cons a t ih =>
      by_cases hqa : q a = true
      · rw [List.map_cons, List.find?_cons_of_pos _ (by rw [h a]; exact hqa),
          List.find?_cons_of_pos _ hqa, Option.map_some']
      · rw [List.map_cons, List.find?_cons_of_neg _ (by rw [h a]; simpa using hqa),
          List.find?_cons_of_neg _ (by simpa using hqa), ih]

/-- Ownership lookup after a row update keyed on the same project id. -/
theorem findProject_updateProjectRow (db : DB) (projectId userId : Nat)
    (f : Project → Project)
    (hf : ∀ p, (f p).id = p.id ∧ (f p).userId = p.userId) :
    findProject (updateProjectRow db projectId f) projectId userId =
      (findProject db projectId userId).map
        (fun p => if p.id == projectId then f p else p) := by
  apply find?_map_pres
  intro a
  by_cases ha : a.id == projectId
  · simp [ha, (hf a).1, (hf a).2]
  · simp [ha]

/-- TrainingModel lookup (keyed on projectId) after a row update that
preserves projectId. -/
theorem findTrainingModel_updateTrainingModelRow (db : DB) (id projectId : Nat)
    (f : TrainingModel → TrainingModel)
    (hf : ∀ t, (f t).projectId = t.projectId) :
    findTrainingModel (updateTrainingModelRow db id f) projectId =
      (findTrainingModel db projectId).map
        (fun t => if t.id == id then f t else t) := by
  apply find?_map_pres
  intro a
  by_cases ha : a.id == id
  · simp [ha, hf a]
  · simp [ha]

/-- A successful ownership lookup certifies the id/user match. -/
theorem findProject_some_pred {db : DB} {projectId userId : Nat} {p : Project}
    (h : findProject db projectId userId = some p) :
    p.id = projectId ∧ p.userId = userId := by
  have := List.find?_some h
  simp only [Bool.and_eq_true, beq_iff_eq] at this
  exact this

/-- Ownership lookup after an id/user-preserving row update of the found
project resolves to the updated row. -/
theorem findProject_after_update (db : DB) (projectId userId : Nat)
    (project : Project) (f : Project → Project)
    (hf : ∀ p, (f p).id = p.id ∧ (f p).userId = p.userId)
    (hp : findProject db projectId userId = some project) :
    findProject (updateProjectRow db projectId f) projectId userId = some (f project) := by
  rw [findProject_updateProjectRow db projectId userId f hf, hp, Option.map_some']
  have hid : project.id == projectId := by simp [(findProject_some_pred hp).1]
  rw [if_pos hid]

/-- `find? = none` from pointwise failure of the ownership predicate. -/
theorem findProject_eq_none {db : DB} {projectId userId : Nat}
    (h : ∀ q ∈ db.projects, q.id = projectId → q.userId ≠ userId) :
    findProject db projectId userId = none := by
  apply List.find?_eq_none.mpr
  intro q hq
  simp only [Bool.and_eq_true, beq_iff_eq, not_and]
  intro hid
  exact h q hq hid

/-! ## Claim C8 -/

/-- Claim C8: for every image URL, if the vision-analysis provider call
errors, single-photo analysis returns the fixed neutral result (quality
score 7.0, all five feedback fields good, approved) instead of propagating
the error; `analyzePhoto` is total, so `uploadPhoto` never fails because of
a vision-provider failure. -/
theorem analyzePhoto_provider_error_falls_back
    (vision : String → Except String PhotoAnalysisResult) (imageUrl e : String)
    (h : vision imageUrl = Except.error e) :
    analyzePhoto vision imageUrl = defaultAnalysis ∧
    (analyzePhoto vision imageUrl).qualityScore = 7 ∧
    (analyzePhoto vision imageUrl).feedback = allGoodFeedback ∧
    (analyzePhoto vision imageUrl).approved = true := by
  have hd : analyzePhoto vision imageUrl = defaultAnalysis := by
    simp [analyzePhoto, h]
  refine ⟨hd, ?_, ?_, ?_⟩ <;> rw [hd] <;> rfl

/-- Witness for C8 at a concrete always-failing provider. -/
theorem analyzePhoto_provider_error_falls_back_witness :
    ((fun _ : String => (Except.error "boom" : Except String PhotoAnalysisResult)) "u"
        = Except.error "boom") ∧
    (analyzePhoto (fun _ => Except.error "boom") "u" = defaultAnalysis ∧
     (analyzePhoto (fun _ => Except.error "boom") "u").qualityScore = 7 ∧
     (analyzePhoto (fun _ => Except.error "boom") "u").feedback = allGoodFeedback ∧
     (analyzePhoto (fun _ => Except.error "boom") "u").approved = true) :=
  ⟨rfl, analyzePhoto_provider_error_falls_back (fun _ => Except.error "boom") "u" "boom" rfl⟩

/-! ## Claim C3 -/

/-- Claim C3: on an owned project with 9 or fewer uploaded photos,
`startTraining` fails with exactly "Need at least 10 photos to train model",
issues no provider call, and leaves the store unchanged (in particular no
TrainingModel row is created). -/
theorem startTraining_too_few_photos (db : DB) (providers : Providers)
    (projectId userId now : Nat) (project : Project)
    (hp : findProject db projectId userId = some project)
    (hcount : (projectPhotos db projectId).length ≤ 9) :
    startTraining db providers projectId userId now =
      ⟨Except.error "Need at least 10 photos to train model", db, []⟩ := by
  have hlt : (projectPhotos db projectId).length < 10 := by omega
  simp [startTraining, hp, hlt]

/-- Witness for C3: owned project with zero photos. -/
theorem startTraining_too_few_photos_witness :
    findProject
        { projects := [sampleProject], photos := [], trainingModels := [],
          headshots := [], coaching := [], nextId := 10 } 1 1 = some sampleProject ∧
    (projectPhotos
        { projects := [sampleProject], photos := [], trainingModels := [],
          headshots := [], coaching := [], nextId := 10 } 1).length ≤ 9 ∧
    startTraining
        { projects := [sampleProject], photos := [], trainingModels := [],
          headshots := [], coaching := [], nextId := 10 } stubProviders 1 1 0 =
      ⟨Except.error "Need at least 10 photos to train model",
        { projects := [sampleProject], photos := [], trainingModels := [],
          headshots := [], coaching := [], nextId := 10 }, []⟩ :=
  ⟨by decide, by decide,
    startTraining_too_few_photos _ stubProviders 1 1 0 sampleProject (by decide) (by decide)⟩

/-! ## Claim C7 -/

/-- Claim C7: for every owned project, `deleteProject` succeeds and removes
the project row and every child Photo, Headshot, TrainingModel and
CoachingFeedback row; this holds for every storage-provider behavior
(`providers` is universally quantified, so in particular when every
`deleteImage` call fails), and no storage failure reaches the caller. -/
theorem deleteProject_always_cascades (db : DB) (providers : Providers)
    (projectId userId : Nat) (project : Project)
    (hp : findProject db projectId userId = some project) :
    (deleteProject db providers projectId userId).res = Except.ok true ∧
    (∀ p ∈ (deleteProject db providers projectId userId).db.projects, p.id ≠ projectId) ∧
    (∀ p ∈ (deleteProject db providers projectId userId).db.photos, p.projectId ≠ projectId) ∧
    (∀ h ∈ (deleteProject db providers projectId userId).db.headshots, h.projectId ≠ projectId) ∧
    (∀ t ∈ (deleteProject db providers projectId userId).db.trainingModels, t.projectId ≠ projectId) ∧
    (∀ c ∈ (deleteProject db providers projectId userId).db.coaching, c.projectId ≠ projectId) := by
  simp [deleteProject, hp, List.mem_filter]

/-- Witness for C7: every child row is removed even though every simulated
storage deletion fails. -/
theorem deleteProject_always_cascades_witness :
    findProject deletionDB 1 1 = some sampleProject ∧
    ((deleteProject deletionDB failingDeleteProviders 1 1).res = Except.ok true ∧
     (∀ p ∈ (deleteProject deletionDB failingDeleteProviders 1 1).db.projects, p.id ≠ 1) ∧
     (∀ p ∈ (deleteProject deletionDB failingDeleteProviders 1 1).db.photos, p.projectId ≠ 1) ∧
     (∀ h ∈ (deleteProject deletionDB failingDeleteProviders 1 1).db.headshots, h.projectId ≠ 1) ∧
     (∀ t ∈ (deleteProject deletionDB failingDeleteProviders 1 1).db.trainingModels, t.projectId ≠ 1) ∧
     (∀ c ∈ (deleteProject deletionDB failingDeleteProviders 1 1).db.coaching, c.projectId ≠ 1)) :=
  ⟨by decide,
    deleteProject_always_cascades deletionDB failingDeleteProviders 1 1 sampleProject (by decide)⟩

/-! ## Claim C9 -/

/-- Claim C9: whenever no project row with the requested id is owned by the
caller — which covers both a nonexistent project id and a project owned by a
different user — every ProjectService operation fails with the branch-fixed
error constant, leaves the store unchanged, and issues no provider call.
Because the outcome is the same constant in both scenarios, a caller cannot
distinguish another user's project from a nonexistent one, and the
ownership check precedes every provider call and every persistent write. -/
theorem ownership_mismatch_indistinguishable_from_missing
    (db : DB) (providers : Providers) (projectId userId : Nat)
    (data : UpdateProjectInput) (imageUrl : String) (resp : ReplicateTraining)
    (now : Nat) (style background : String) (styles : List String) (numPerStyle : Nat)
    (hown : ∀ q ∈ db.projects, q.id = projectId → q.userId ≠ userId) :
    findProject db projectId userId = none ∧
    getProject db projectId userId = ⟨Except.error "Project not found", db, []⟩ ∧
    updateProject db projectId userId data = ⟨Except.error "Project not found", db, []⟩ ∧
    uploadPhoto db providers projectId userId imageUrl =
      ⟨Except.error "Project not found", db, []⟩ ∧
    analyzeProjectPhotos db providers projectId userId =
      ⟨Except.error "Project not found", db, []⟩ ∧
    startTraining db providers projectId userId now =
      ⟨Except.error "Project not found", db, []⟩ ∧
    checkTrainingProgress db projectId userId resp now =
      ⟨Except.error "Training not started", db, []⟩ ∧
    generatePreview db providers projectId userId style background =
      ⟨Except.error "Project not ready for generation", db, []⟩ ∧
    generateFullSet db providers projectId userId styles numPerStyle now =
      ⟨Except.error "Project not ready", db, []⟩ ∧
    deleteProject db providers projectId userId =
      ⟨Except.error "Project not found", db, []⟩ := by
  have hnone : findProject db projectId userId = none := findProject_eq_none hown
  refine ⟨hnone, ?_, ?_, ?_, ?_, ?_, ?_, ?_, ?_, ?_⟩ <;>
    simp [getProject, updateProject, uploadPhoto, analyzeProjectPhotos, startTraining,
      checkTrainingProgress, generatePreview, generateFullSet, deleteProject, hnone]

/-- Witness for C9: caller 1 probing user 2's project (id 1). -/
theorem ownership_mismatch_indistinguishable_from_missing_witness :
    (∀ q ∈ foreignDB.projects, q.id = 1 → q.userId ≠ 1) ∧
    (findProject foreignDB 1 1 = none ∧
     getProject foreignDB 1 1 = ⟨Except.error "Project not found", foreignDB, []⟩ ∧
     updateProject foreignDB 1 1 { name := none, style := none, background := none, customBrand := none } =
       ⟨Except.error "Project not found", foreignDB, []⟩ ∧
     uploadPhoto foreignDB stubProviders 1 1 "img" =
       ⟨Except.error "Project not found", foreignDB, []⟩ ∧
     analyzeProjectPhotos foreignDB stubProviders 1 1 =
       ⟨Except.error "Project not found", foreignDB, []⟩ ∧
     startTraining foreignDB stubProviders 1 1 0 =
       ⟨Except.error "Project not found", foreignDB, []⟩ ∧
     checkTrainingProgress foreignDB 1 1
         { status := "processing", metricsStep := none, metricsTotalSteps := none,
           error := none, outputVersion := none } 0 =
       ⟨Except.error "Training not started", foreignDB, []⟩ ∧
     generatePreview foreignDB stubProviders 1 1 "CORPORATE" "office" =
       ⟨Except.error "Project not ready for generation", foreignDB, []⟩ ∧
     generateFullSet foreignDB stubProviders 1 1 ["CORPORATE"] 10 0 =
       ⟨Except.error "Project not ready", foreignDB, []⟩ ∧
     deleteProject foreignDB stubProviders 1 1 =
       ⟨Except.error "Project not found", foreignDB, []⟩) :=
  ⟨by decide,
    ownership_mismatch_indistinguishable_from_missing foreignDB stubProviders 1 1
      { name := none, style := none, background := none, customBrand := none } "img"
      { status := "processing", metricsStep := none, metricsTotalSteps := none,
        error := none, outputVersion := none } 0 "CORPORATE" "office" ["CORPORATE"] 10
      (by decide)⟩

/-! ## Claim C5 -/

/-- Counterexample to C5 as stated: a single-photo batch in which 100
percent of the photos are graded poor on focus (well above the 30 percent
threshold) produces no FOCUS CoachingFeedback at all — the source never
emits a suggestion for the focus dimension. -/
theorem coaching_focus_dimension_never_emitted_cex :
    10 * (countIssues ((analyzePhotoSet (fun _ => Except.ok poorFocusResult) ["u1"]).individualResults)).focus >
      3 * ((analyzePhotoSet (fun _ => Except.ok poorFocusResult) ["u1"]).individualResults).length ∧
    ((analyzePhotoSet (fun _ => Except.ok poorFocusResult) ["u1"]).coachingSuggestions).countP
        (fun s => s.type == "FOCUS") = 0 := by
  decide

/-- Claim C5 as amended: batch analysis emits exactly one CoachingFeedback
for each of the four dimensions lighting, background, expression and angle
when the count of photos flagged poor on it exceeds 30 percent of the total
photo count (priority 1 for lighting/background, priority 2 for
expression/angle); photos flagged poor on focus are counted but never
produce a feedback; and exactly one QUANTITY feedback at priority 1 is
emitted whenever the total photo count is below 15. -/
theorem coaching_rule_based_aggregation
    (vision : String → Except String PhotoAnalysisResult) (imageUrls : List String)
    (results : List PhotoAnalysisResult)
    (hres : results = imageUrls.map (analyzePhoto vision)) :
    (analyzePhotoSet vision imageUrls).coachingSuggestions = generateCoachingSuggestions results ∧
    (generateCoachingSuggestions results).countP (fun s => s.type == "LIGHTING") =
      (if 10 * (countIssues results).lighting > 3 * results.length then 1 else 0) ∧
    (generateCoachingSuggestions results).countP (fun s => s.type == "BACKGROUND") =
      (if 10 * (countIssues results).background > 3 * results.length then 1 else 0) ∧
    (generateCoachingSuggestions results).countP (fun s => s.type == "EXPRESSION") =
      (if 10 * (countIssues results).expression > 3 * results.length then 1 else 0) ∧
    (generateCoachingSuggestions results).countP (fun s => s.type == "ANGLE") =
      (if 10 * (countIssues results).angle > 3 * results.length then 1 else 0) ∧
    (generateCoachingSuggestions results).countP (fun s => s.type == "FOCUS") = 0 ∧
    (generateCoachingSuggestions results).countP (fun s => s.type == "QUANTITY") =
      (if results.length < 15 then 1 else 0) ∧
    (∀ x ∈ generateCoachingSuggestions results,
      (x.type = "LIGHTING" → x.priority = 1) ∧
      (x.type = "BACKGROUND" → x.priority = 1) ∧
      (x.type = "EXPRESSION" → x.priority = 2) ∧
      (x.type = "ANGLE" → x.priority = 2) ∧
      (x.type = "QUANTITY" → x.priority = 1)) := by
  subst hres
  refine ⟨rfl, ?_, ?_, ?_, ?_, ?_, ?_, ?_⟩ <;>
    · simp only [generateCoachingSuggestions]
      split_ifs <;> decide

/-- Witness for C5 (amended) at the concrete 14-photo batch: exactly one
LIGHTING suggestion, one QUANTITY suggestion, and no FOCUS suggestion. -/
theorem coaching_rule_based_aggregation_witness :
    (generateCoachingSuggestions (c5Urls.map (analyzePhoto c5Vision))).countP
        (fun s => s.type == "LIGHTING") = 1 ∧
    (generateCoachingSuggestions (c5Urls.map (analyzePhoto c5Vision))).countP
        (fun s => s.type == "QUANTITY") = 1 ∧
    (generateCoachingSuggestions (c5Urls.map (analyzePhoto c5Vision))).countP
        (fun s => s.type == "FOCUS") = 0 :=
  ⟨((coaching_rule_based_aggregation c5Vision c5Urls _ rfl).2.1).trans (by decide),
   ((coaching_rule_based_aggregation c5Vision c5Urls _ rfl).2.2.2.2.2.2.1).trans (by decide),
   (coaching_rule_based_aggregation c5Vision c5Urls _ rfl).2.2.2.2.2.1⟩

/-! ## Claim C2 -/

/-- Counterexample to C2 as stated: a successful `startTraining` call on an
owned project with ten photos creates the TrainingModel row in training
status, but the stored Project.status afterwards is generatingPreview — no
project row is in training status. -/
theorem startTraining_project_status_cex :
    (startTraining dbTenPhotos stubProviders 1 1 7).res.isOk = true ∧
    (∃ tm ∈ (startTraining dbTenPhotos stubProviders 1 1 7).db.trainingModels,
        tm.projectId = 1 ∧ tm.status = ModelStatus.training) ∧
    (∀ p ∈ (startTraining dbTenPhotos stubProviders 1 1 7).db.projects,
        p.status ≠ ProjectStatus.training) ∧
    findProject (startTraining dbTenPhotos stubProviders 1 1 7).db 1 1 =
      some { sampleProject with status := ProjectStatus.generatingPreview } := by
  decide

/-- Claim C2 as amended: after every successful `startTraining` call (owned
project, at least 10 photos, provider call succeeded) a new TrainingModel
row exists in training status, and the Project's stored status equals
generatingPreview (the optimistic staging status the source writes), not
training. -/
theorem startTraining_creates_model_sets_generating_preview
    (db : DB) (providers : Providers) (projectId userId now : Nat)
    (project : Project) (tid : String)
    (hp : findProject db projectId userId = some project)
    (hcount : 10 ≤ (projectPhotos db projectId).length)
    (htrain : providers.train
        (((projectPhotos db projectId).filter (fun p => p.isApproved)).map
          (fun p => p.originalUrl)) = Except.ok tid) :
    (startTraining db providers projectId userId now).res =
      Except.ok
        { trainingId := tid
          model :=
            { id := db.nextId, projectId := projectId, replicateId := tid,
              status := ModelStatus.training, progress := 0, modelUrl := none,
              triggerWord := "TOK", error := none, startedAt := some now,
              completedAt := none } } ∧
    (startTraining db providers projectId userId now).db.trainingModels =
      db.trainingModels ++
        [{ id := db.nextId, projectId := projectId, replicateId := tid,
           status := ModelStatus.training, progress := 0, modelUrl := none,
           triggerWord := "TOK", error := none, startedAt := some now,
           completedAt := none }] ∧
    findProject (startTraining db providers projectId userId now).db projectId userId =
      some { project with status := ProjectStatus.generatingPreview } := by
  have hlt : ¬ (projectPhotos db projectId).length < 10 := by omega
  have hmain : startTraining db providers projectId userId now =
      ⟨Except.ok
        { trainingId := tid
          model :=
            { id := db.nextId, projectId := projectId, replicateId := tid,
              status := ModelStatus.training, progress := 0, modelUrl := none,
              triggerWord := "TOK", error := none, startedAt := some now,
              completedAt := none } },
        updateProjectRow
          { db with
              trainingModels := db.trainingModels ++
                [{ id := db.nextId, projectId := projectId, replicateId := tid,
                   status := ModelStatus.training, progress := 0, modelUrl := none,
                   triggerWord := "TOK", error := none, startedAt := some now,
                   completedAt := none }]
              nextId := db.nextId + 1 }
          projectId (fun p => { p with status := ProjectStatus.generatingPreview }),
        [ProviderCall.trainModel
          (((projectPhotos db projectId).filter (fun p => p.isApproved)).map
            (fun p => p.originalUrl))]⟩ := by
    simp [startTraining, hp, hlt, htrain]
  refine ⟨by rw [hmain], by rw [hmain]; rfl, ?_⟩
  conv_lhs => rw [hmain]
  exact findProject_after_update _ projectId userId project
    (fun p => { p with status := ProjectStatus.generatingPreview })
    (fun p => ⟨rfl, rfl⟩) hp

/-- Witness for C2 (amended) on the concrete ten-photo store. -/
theorem startTraining_creates_model_sets_generating_preview_witness :
    findProject dbTenPhotos 1 1 = some { sampleProject with status := ProjectStatus.ready } ∧
    10 ≤ (projectPhotos dbTenPhotos 1).length ∧
    stubProviders.train
        (((projectPhotos dbTenPhotos 1).filter (fun p => p.isApproved)).map
          (fun p => p.originalUrl)) = Except.ok "train-1" ∧
    ((startTraining dbTenPhotos stubProviders 1 1 7).res =
      Except.ok
        { trainingId := "train-1"
          model :=
            { id := dbTenPhotos.nextId, projectId := 1, replicateId := "train-1",
              status := ModelStatus.training, progress := 0, modelUrl := none,
              triggerWord := "TOK", error := none, startedAt := some 7,
              completedAt := none } } ∧
     (startTraining dbTenPhotos stubProviders 1 1 7).db.trainingModels =
      dbTenPhotos.trainingModels ++
        [{ id := dbTenPhotos.nextId, projectId := 1, replicateId := "train-1",
           status := ModelStatus.training, progress := 0, modelUrl := none,
           triggerWord := "TOK", error := none, startedAt := some 7,
           completedAt := none }] ∧
     findProject (startTraining dbTenPhotos stubProviders 1 1 7).db 1 1 =
      some { { sampleProject with status := ProjectStatus.ready } with
               status := ProjectStatus.generatingPreview }) :=
  ⟨by decide, by decide, by decide,
    startTraining_creates_model_sets_generating_preview dbTenPhotos stubProviders 1 1 7
      { sampleProject with status := ProjectStatus.ready } "train-1"
      (by decide) (by decide) (by decide)⟩

/-! ## Claim C6 -/

/-- Counterexample to C6 as stated: two consecutive successful polls whose
provider responses are both non-terminal (status processing) drive stored
progress from 80 down to 50, because each poll overwrites progress with the
provider-derived `calculateProgress` value and the second response carries no
step metrics. Stored progress therefore can decrease while the provider
keeps reporting a non-terminal status. -/
theorem checkTrainingProgress_progress_can_decrease_cex :
    pollWithMetrics.status ≠ "succeeded" ∧ pollWithMetrics.status ≠ "failed" ∧
    pollNoMetrics.status ≠ "succeeded" ∧ pollNoMetrics.status ≠ "failed" ∧
    (findTrainingModel (checkTrainingProgress dbPolling 1 1 pollWithMetrics 1).db 1).map
        (fun t => t.progress) = some 80 ∧
    (findTrainingModel
        (checkTrainingProgress (checkTrainingProgress dbPolling 1 1 pollWithMetrics 1).db
          1 1 pollNoMetrics 2).db 1).map (fun t => t.progress) = some 50 ∧
    (50 : Rat) < 80 := by
  refine ⟨by decide, by decide, by decide, by decide, ?_, ?_, by norm_num⟩
  · norm_num [checkTrainingProgress, dbPolling, pollWithMetrics, findProject,
      findTrainingModel, updateTrainingModelRow, sampleProject, calculateProgress,
      defaultStatusProgress]
    decide
  · norm_num [checkTrainingProgress, dbPolling, pollWithMetrics, pollNoMetrics, findProject,
      findTrainingModel, updateTrainingModelRow, sampleProject, calculateProgress,
      defaultStatusProgress]
    decide

/-- Claim C6 as amended: a successful poll never touches the project table
(so Project.status is unchanged by polling), and it overwrites
TrainingModel.progress with exactly the provider-derived
`calculateProgress` value of that poll — hence progress is non-decreasing
across consecutive polls precisely when the provider-derived values are
non-decreasing, and can decrease otherwise (for a non-terminal response the
row also stays in training status). -/
theorem checkTrainingProgress_copies_provider_progress
    (db : DB) (projectId userId : Nat) (resp : ReplicateTraining) (now : Nat)
    (project : Project) (tm : TrainingModel)
    (hp : findProject db projectId userId = some project)
    (htm : findTrainingModel db projectId = some tm) :
    (checkTrainingProgress db projectId userId resp now).res =
      Except.ok { status := resp.status, progress := calculateProgress resp,
                  modelVersion := resp.outputVersion } ∧
    (checkTrainingProgress db projectId userId resp now).db.projects = db.projects ∧
    (findTrainingModel (checkTrainingProgress db projectId userId resp now).db projectId).map
        (fun t => t.progress) = some (calculateProgress resp) ∧
    (resp.status ≠ "succeeded" → resp.status ≠ "failed" →
      (findTrainingModel (checkTrainingProgress db projectId userId resp now).db projectId).map
        (fun t => t.status) = some ModelStatus.training) := by
  have hupd : findTrainingModel (checkTrainingProgress db projectId userId resp now).db projectId =
      some
        { tm with
            status :=
              if resp.status = "succeeded" then ModelStatus.completed
              else if resp.status = "failed" then ModelStatus.failed
              else ModelStatus.training
            progress := calculateProgress resp
            modelUrl := match resp.outputVersion with | some v => some v | none => tm.modelUrl
            error := match resp.error with | some e => some e | none => tm.error
            completedAt := if resp.status = "succeeded" then some now else tm.completedAt } := by
    simp only [checkTrainingProgress, hp, htm]
    refine (findTrainingModel_updateTrainingModelRow db tm.id projectId
      (fun t =>
        { t with
            status :=
              if resp.status = "succeeded" then ModelStatus.completed
              else if resp.status = "failed" then ModelStatus.failed
              else ModelStatus.training
            progress := calculateProgress resp
            modelUrl := match resp.outputVersion with | some v => some v | none => t.modelUrl
            error := match resp.error with | some e => some e | none => t.error
            completedAt := if resp.status = "succeeded" then some now else t.completedAt })
      (fun t => rfl)).trans ?_
    rw [htm]
    simp
  refine ⟨?_, ?_, ?_, ?_⟩
  · simp [checkTrainingProgress, hp, htm]
  · simp [checkTrainingProgress, hp, htm, updateTrainingModelRow]
  · simp [hupd]
  · intro hs hf
    rw [hupd, Option.map_some']
    simp [hs, hf]

/-- Witness for C6 (amended) at a concrete non-terminal poll. -/
theorem checkTrainingProgress_copies_provider_progress_witness :
    findProject dbPolling 1 1 = some { sampleProject with status := ProjectStatus.ready } ∧
    findTrainingModel dbPolling 1 =
      some { id := 5, projectId := 1, replicateId := "r1", status := ModelStatus.training,
             progress := 0, modelUrl := none, triggerWord := "TOK", error := none,
             startedAt := some 0, completedAt := none } ∧
    ((checkTrainingProgress dbPolling 1 1 pollWithMetrics 1).res =
      Except.ok { status := pollWithMetrics.status,
                  progress := calculateProgress pollWithMetrics,
                  modelVersion := pollWithMetrics.outputVersion } ∧
     (checkTrainingProgress dbPolling 1 1 pollWithMetrics 1).db.projects = dbPolling.projects ∧
     (findTrainingModel (checkTrainingProgress dbPolling 1 1 pollWithMetrics 1).db 1).map
        (fun t => t.progress) = some (calculateProgress pollWithMetrics) ∧
     (pollWithMetrics.status ≠ "succeeded" → pollWithMetrics.status ≠ "failed" →
      (findTrainingModel (checkTrainingProgress dbPolling 1 1 pollWithMetrics 1).db 1).map
        (fun t => t.status) = some ModelStatus.training)) :=
  ⟨by decide, by decide,
    checkTrainingProgress_copies_provider_progress dbPolling 1 1 pollWithMetrics 1
      { sampleProject with status := ProjectStatus.ready }
      { id := 5, projectId := 1, replicateId := "r1", status := ModelStatus.training,
        progress := 0, modelUrl := none, triggerWord := "TOK", error := none,
        startedAt := some 0, completedAt := none }
      (by decide) (by decide)⟩

/-! ## Claim C4 -/

/-- The suggestion-persistence loop appends exactly the derived rows. -/
theorem foldl_insertCoaching (projectId : Nat) (db : DB) (ss : List Suggestion) :
    ss.foldl (insertCoaching projectId) db =
      { db with
          coaching := db.coaching ++ coachingRowsFor projectId db.nextId ss
          nextId := db.nextId + ss.length } := by
  induction ss generalizing db with
  | nil => simp [coachingRowsFor]
  | cons s rest ih =>
      rw [List.foldl_cons, ih]
      simp only [insertCoaching, coachingRowsFor, List.append_assoc, List.singleton_append,
        List.length_cons, DB.mk.injEq, true_and]
      omega

/-- The persisted rows carry the suggestions' content verbatim. -/
theorem coachingRowsFor_content (projectId n : Nat) (ss : List Suggestion) :
    (coachingRowsFor projectId n ss).map
        (fun c => (c.type, c.title, c.description, c.priority)) =
      ss.map (fun s => (s.type, s.title, s.description, s.priority)) := by
  induction ss generalizing n with
  | nil => rfl
  | cons s rest ih => simp [coachingRowsFor, ih]

/-- Claim C4: given an owned project, `analyzeProjectPhotos` fails with
InvalidState "No photos uploaded yet" if and only if the project has zero
photos (and then changes nothing); otherwise it persists one
CoachingFeedback row per derived suggestion (content and priority verbatim),
sets Project.qualityScore to the arithmetic mean of the per-photo quality
scores of the batch analysis, stores the analysis blob, and sets the status
to ready. -/
theorem analyzeProjectPhotos_spec (db : DB) (providers : Providers)
    (projectId userId : Nat) (project : Project)
    (hp : findProject db projectId userId = some project) :
    ((analyzeProjectPhotos db providers projectId userId).res =
        Except.error "No photos uploaded yet" ↔ projectPhotos db projectId = []) ∧
    (projectPhotos db projectId = [] →
      (analyzeProjectPhotos db providers projectId userId).db = db) ∧
    (projectPhotos db projectId ≠ [] →
      (analyzeProjectPhotos db providers projectId userId).res.isOk = true ∧
      (analyzeProjectPhotos db providers projectId userId).db.coaching =
        db.coaching ++ coachingRowsFor projectId db.nextId
          (projectAnalysis db providers projectId).coachingSuggestions ∧
      (coachingRowsFor projectId db.nextId
          (projectAnalysis db providers projectId).coachingSuggestions).map
          (fun c => (c.type, c.title, c.description, c.priority)) =
        ((projectAnalysis db providers projectId).coachingSuggestions).map
          (fun s => (s.type, s.title, s.description, s.priority)) ∧
      (projectAnalysis db providers projectId).averageScore =
        ((projectPhotos db projectId).map
            (fun p => (analyzePhoto providers.vision p.originalUrl).qualityScore)).sum /
          ((projectPhotos db projectId).length : Rat) ∧
      findProject (analyzeProjectPhotos db providers projectId userId).db projectId userId =
        some { project with
                 qualityScore := some (projectAnalysis db providers projectId).averageScore
                 analysisResults := some
                   ((projectAnalysis db providers projectId).overallFeedback,
                    (projectAnalysis db providers projectId).individualResults.map
                      (fun r => r.qualityScore))
                 status := ProjectStatus.ready }) := by
  by_cases hemp : projectPhotos db projectId = []
  · have hres : analyzeProjectPhotos db providers projectId userId =
        ⟨Except.error "No photos uploaded yet", db, []⟩ := by
      simp [analyzeProjectPhotos, hp, hemp]
    refine ⟨by rw [hres]; simp [hemp], by intro _; rw [hres], by intro h; exact absurd hemp h⟩
  · have hne : (projectPhotos db projectId).isEmpty = false := by
      simpa [List.isEmpty_iff] using hemp
    have hmain : analyzeProjectPhotos db providers projectId userId =
        ⟨Except.ok
          { averageScore := (projectAnalysis db providers projectId).averageScore
            feedback := (projectAnalysis db providers projectId).overallFeedback
            coaching := (projectAnalysis db providers projectId).coachingSuggestions },
          updateProjectRow
            ((projectAnalysis db providers projectId).coachingSuggestions.foldl
              (insertCoaching projectId) db)
            projectId (fun p =>
              { p with
                  qualityScore := some (projectAnalysis db providers projectId).averageScore
                  analysisResults := some
                    ((projectAnalysis db providers projectId).overallFeedback,
                     (projectAnalysis db providers projectId).individualResults.map
                       (fun r => r.qualityScore))
                  status := ProjectStatus.ready }),
          ((projectPhotos db projectId).map (fun p => p.originalUrl)).map
            (fun u => ProviderCall.visionAnalyze u)⟩ := by
      simp [analyzeProjectPhotos, hp, hne, projectAnalysis]
    refine ⟨?_, fun h => absurd h hemp, fun _ => ⟨by rw [hmain]; rfl, ?_, ?_, ?_, ?_⟩⟩
    · rw [hmain]
      simp [hemp]
    · rw [hmain]
      show (updateProjectRow
          ((projectAnalysis db providers projectId).coachingSuggestions.foldl
            (insertCoaching projectId) db) projectId _).coaching = _
      rw [foldl_insertCoaching]
      rfl
    · exact coachingRowsFor_content _ _ _
    · simp only [projectAnalysis, analyzePhotoSet, List.map_map, List.length_map]
      rfl
    · rw [hmain]
      show findProject (updateProjectRow
          ((projectAnalysis db providers projectId).coachingSuggestions.foldl
            (insertCoaching projectId) db) projectId _) projectId userId = _
      rw [foldl_insertCoaching]
      exact findProject_after_update _ projectId userId project _ (fun p => ⟨rfl, rfl⟩) hp

/-- Witness for C4 on the one-photo store. -/
theorem analyzeProjectPhotos_spec_witness :
    findProject dbAnalyze 1 1 = some sampleProject ∧
    (((analyzeProjectPhotos dbAnalyze stubProviders 1 1).res =
        Except.error "No photos uploaded yet" ↔ projectPhotos dbAnalyze 1 = []) ∧
     (projectPhotos dbAnalyze 1 = [] →
      (analyzeProjectPhotos dbAnalyze stubProviders 1 1).db = dbAnalyze) ∧
     (projectPhotos dbAnalyze 1 ≠ [] →
      (analyzeProjectPhotos dbAnalyze stubProviders 1 1).res.isOk = true ∧
      (analyzeProjectPhotos dbAnalyze stubProviders 1 1).db.coaching =
        dbAnalyze.coaching ++ coachingRowsFor 1 dbAnalyze.nextId
          (projectAnalysis dbAnalyze stubProviders 1).coachingSuggestions ∧
      (coachingRowsFor 1 dbAnalyze.nextId
          (projectAnalysis dbAnalyze stubProviders 1).coachingSuggestions).map
          (fun c => (c.type, c.title, c.description, c.priority)) =
        ((projectAnalysis dbAnalyze stubProviders 1).coachingSuggestions).map
          (fun s => (s.type, s.title, s.description, s.priority)) ∧
      (projectAnalysis dbAnalyze stubProviders 1).averageScore =
        ((projectPhotos dbAnalyze 1).map
            (fun p => (analyzePhoto stubProviders.vision p.originalUrl).qualityScore)).sum /
          ((projectPhotos dbAnalyze 1).length : Rat) ∧
      findProject (analyzeProjectPhotos dbAnalyze stubProviders 1 1).db 1 1 =
        some { sampleProject with
                 qualityScore := some (projectAnalysis dbAnalyze stubProviders 1).averageScore
                 analysisResults := some
                   ((projectAnalysis dbAnalyze stubProviders 1).overallFeedback,
                    (projectAnalysis dbAnalyze stubProviders 1).individualResults.map
                      (fun r => r.qualityScore))
                 status := ProjectStatus.ready })) :=
  ⟨by decide, analyzeProjectPhotos_spec dbAnalyze stubProviders 1 1 sampleProject (by decide)⟩

/-! ## Machinery for the generation fan-out (claims about generateFullSet) -/

theorem createdRows_length (mkRow : Nat → String → Headshot) (n : Nat) (urls : List String) :
    (createdRows mkRow n urls).length = urls.length := by
  induction urls generalizing n with
  | nil => rfl
  | cons u rest ih => simp [createdRows, ih]

theorem createHeadshotRows_eq (mkRow : Nat → String → Headshot) (db : DB) (urls : List String) :
    createHeadshotRows mkRow db urls =
      ({ db with
           headshots := db.headshots ++ createdRows mkRow db.nextId urls
           nextId := db.nextId + urls.length },
       createdRows mkRow db.nextId urls) := by
  induction urls generalizing db with
  | nil => simp [createHeadshotRows, createdRows]
  | cons u rest ih =>
      simp only [createHeadshotRows, createdRows, ih, Prod.mk.injEq, DB.mk.injEq,
        List.append_assoc, List.singleton_append, List.length_cons, true_and, and_true]
      omega

theorem createdRows_map_id (mkRow : Nat → String → Headshot)
    (hid : ∀ i u, (mkRow i u).id = i) (n : Nat) (urls : List String) :
    (createdRows mkRow n urls).map (fun h => h.id) = List.range' n urls.length := by
  induction urls generalizing n with
  | nil => rfl
  | cons u rest ih => simp [createdRows, List.range'_succ, hid, ih]

theorem createdRows_mem (mkRow : Nat → String → Headshot) (n : Nat) (urls : List String) :
    ∀ h ∈ createdRows mkRow n urls, ∃ i u, h = mkRow i u := by
  induction urls generalizing n with
  | nil => intro h hmem; simp [createdRows] at hmem
  | cons u rest ih =>
      intro h hmem
      simp only [createdRows, List.mem_cons] at hmem
      rcases hmem with rfl | hmem
      · exact ⟨n, u, rfl⟩
      · exact ih (n + 1) h hmem

theorem take_range'_eq (s n m : Nat) : (List.range' s n).take m = List.range' s (min m n) := by
  induction n generalizing s m with
  | zero => simp [List.range']
  | succ k ih =>
      cases m with
      | zero => simp [List.range']
      | succ m => simp [List.range'_succ, ih, Nat.succ_min_succ]

/-- Counting positives in a list whose i-th element is positive exactly when
i is below the cutoff k. -/
theorem countP_of_get_decide {α : Type} (p : α → Bool) (l : List α) :
    ∀ k : Nat, (∀ i (hi : i < l.length), p (l.get ⟨i, hi⟩) = decide (i < k)) →
      l.countP p = min k l.length := by
  induction l with
  | nil => intro k _; simp
  | cons a t ih =>
      intro k h
      have h0 : p a = decide (0 < k) := h 0 (by simp)
      have ht : ∀ i (hi : i < t.length), p (t.get ⟨i, hi⟩) = decide (i < k - 1) := by
        intro i hi
        have h2 := h (i + 1) (by simpa using Nat.succ_lt_succ hi)
        simp only [List.get_eq_getElem] at h2 ⊢
        rw [List.getElem_cons_succ] at h2
        rw [h2]
        exact decide_eq_decide.mpr (by omega)
      rw [List.countP_cons, ih (k - 1) ht, h0]
      rcases Nat.eq_zero_or_pos k with rfl | hk
      · simp
      · rw [if_pos (by simpa using hk)]
        simp only [List.length_cons]
        omega

/-- The sequential per-style loop, on a run where every generation call
returns exactly `numPerStyle` URLs: it appends one block of rows per style,
with sequential ids, all non-preview, initially unpicked and unscored. -/
theorem generateStyleBatches_ok (providers : Providers) (projectId : Nat)
    (background : String) (numPerStyle : Nat) :
    ∀ (styles : List String) (db : DB),
      (∀ s ∈ styles, ∃ urls, providers.generateFull s numPerStyle = Except.ok urls ∧
          urls.length = numPerStyle) →
      ∃ rows : List Headshot,
        generateStyleBatches providers projectId background numPerStyle db styles =
          ({ db with headshots := db.headshots ++ rows, nextId := db.nextId + rows.length },
            Except.ok rows) ∧
        rows.length = styles.length * numPerStyle ∧
        rows.map (fun h => h.id) = List.range' db.nextId rows.length ∧
        (∀ h ∈ rows, h.projectId = projectId ∧ h.isPreview = false ∧ h.isTopPick = false ∧
          h.aiQualityScore = none) := by
  intro styles
  induction styles with
  | nil =>
      intro db _
      refine ⟨[], by simp [generateStyleBatches], by simp, by simp [List.range'], by simp⟩
  | cons s rest ih =>
      intro db hgen
      obtain ⟨urls, hok, hlen⟩ := hgen s (by simp)
      obtain ⟨rows2, heq2, hlen2, hid2, hprop2⟩ :=
        ih { db with
               headshots := db.headshots ++
                 createdRows (mkFullHeadshot providers projectId s background) db.nextId urls
               nextId := db.nextId + urls.length }
          (fun s2 hs2 => hgen s2 (by simp [hs2]))
      refine ⟨createdRows (mkFullHeadshot providers projectId s background) db.nextId urls ++ rows2,
        ?_, ?_, ?_, ?_⟩
      · simp only [generateStyleBatches, hok, createHeadshotRows_eq, heq2]
        simp only [Prod.mk.injEq, DB.mk.injEq, List.append_assoc, List.length_append,
          createdRows_length, true_and, and_true]
        omega
      · simp only [List.length_append, createdRows_length, hlen2, hlen, List.length_cons]
        rw [Nat.succ_mul, Nat.add_comm]
      · rw [List.map_append, createdRows_map_id _ (fun i u => rfl), hid2]
        simp only [List.length_append, createdRows_length, hlen]
        rw [Nat.add_comm numPerStyle rows2.length]
        exact List.range'_append_1 db.nextId numPerStyle rows2.length
      · intro h hmem
        rcases List.mem_append.mp hmem with hmem | hmem
        · obtain ⟨i, u, rfl⟩ := createdRows_mem _ _ _ h hmem
          exact ⟨rfl, rfl, rfl, rfl⟩
        · exact hprop2 h hmem

/-- Master description of a fully successful `generateFullSet` run on a
well-formed store (every stored headshot id below the allocator): it appends
one block of `styles.length * numPerStyle` non-preview rows in creation
order, of which exactly the first `min 20 total` are marked top picks with
the placeholder score 8.5, and completes the project with `totalGenerated`
set to the batch size. -/
theorem generateFullSet_ok (db : DB) (providers : Providers) (projectId userId : Nat)
    (styles : List String) (numPerStyle now : Nat) (project : Project) (tm : TrainingModel)
    (hwf : ∀ h ∈ db.headshots, h.id < db.nextId)
    (hp : findProject db projectId userId = some project)
    (htm : findTrainingModel db projectId = some tm)
    (hcomp : tm.status = ModelStatus.completed)
    (hgen : ∀ s ∈ styles, ∃ urls, providers.generateFull s numPerStyle = Except.ok urls ∧
        urls.length = numPerStyle) :
    ∃ rows : List Headshot,
      (generateFullSet db providers projectId userId styles numPerStyle now).res.isOk = true ∧
      (generateFullSet db providers projectId userId styles numPerStyle now).db.headshots =
        db.headshots ++ rows ∧
      rows.length = styles.length * numPerStyle ∧
      (∀ h ∈ rows, h.projectId = projectId ∧ h.isPreview = false) ∧
      (∀ i (hi : i < rows.length), (rows.get ⟨i, hi⟩).isTopPick = decide (i < 20)) ∧
      (∀ i (hi : i < rows.length),
        (rows.get ⟨i, hi⟩).aiQualityScore =
          if i < 20 then some (8.5 : Rat) else none) ∧
      rows.countP (fun h => h.isTopPick) = min 20 (styles.length * numPerStyle) ∧
      findProject (generateFullSet db providers projectId userId styles numPerStyle now).db
          projectId userId =
        some { project with
                 status := ProjectStatus.completed
                 totalGenerated := styles.length * numPerStyle
                 completedAt := some now } := by
  obtain ⟨rowsRaw, hbatch, hlenRaw, hidRaw, hpropRaw⟩ :=
    generateStyleBatches_ok providers projectId (jsOr project.background "office") numPerStyle
      styles
      (updateProjectRow db projectId (fun p => { p with status := ProjectStatus.generatingFull }))
      hgen
  have hfull : generateFullSet db providers projectId userId styles numPerStyle now =
      ⟨Except.ok { headshots := rowsRaw, topPicks := rowsRaw.take 20 },
        updateProjectRow
          (markTopPicks
            { updateProjectRow db projectId
                (fun p => { p with status := ProjectStatus.generatingFull }) with
                headshots :=
                  (updateProjectRow db projectId
                    (fun p => { p with status := ProjectStatus.generatingFull })).headshots ++ rowsRaw
                nextId :=
                  (updateProjectRow db projectId
                    (fun p => { p with status := ProjectStatus.generatingFull })).nextId +
                    rowsRaw.length }
            ((rowsRaw.take 20).map (fun h => h.id)))
          projectId
          (fun p =>
            { p with
                status := ProjectStatus.completed
                totalGenerated := rowsRaw.length
                completedAt := some now }),
        styles.map (fun s => ProviderCall.generate s numPerStyle)⟩ := by
    simp [generateFullSet, hp, htm, hcomp, hbatch]
  have hidRaw2 : rowsRaw.map (fun h => h.id) = List.range' db.nextId rowsRaw.length := hidRaw
  have hids : (rowsRaw.take 20).map (fun h => h.id) =
      List.range' db.nextId (min 20 rowsRaw.length) := by
    rw [List.map_take, hidRaw2, take_range'_eq]
  have hgetid : ∀ i (hi : i < rowsRaw.length), (rowsRaw.get ⟨i, hi⟩).id = db.nextId + i := by
    intro i hi
    have h1 : (rowsRaw.map (fun h => h.id)).get ⟨i, by simpa using hi⟩ = db.nextId + i := by
      simp only [List.get_eq_getElem, hidRaw2]
      simp [List.getElem_range']
    simpa using h1
  have hmem20 : ∀ i (hi : i < rowsRaw.length),
      ((rowsRaw.get ⟨i, hi⟩).id ∈ (rowsRaw.take 20).map (fun h => h.id)) ↔ i < 20 := by
    intro i hi
    rw [hids, hgetid i hi, List.mem_range'_1]
    omega
  have hold : db.headshots.map
      (fun h => if h.id ∈ (rowsRaw.take 20).map (fun h2 => h2.id) then
        { h with isTopPick := true, aiQualityScore := some (8.5 : Rat) } else h) =
      db.headshots := by
    have hpt : ∀ h0 ∈ db.headshots,
        (fun h => if h.id ∈ (rowsRaw.take 20).map (fun h2 => h2.id) then
          { h with isTopPick := true, aiQualityScore := some (8.5 : Rat) } else h) h0 =
        (fun h => h) h0 := by
      intro h0 hh0
      have hlt := hwf h0 hh0
      have hnc : ¬ (h0.id ∈ (rowsRaw.take 20).map (fun h2 => h2.id)) := by
        rw [hids]
        intro hmem
        have := (List.mem_range'_1.mp hmem).1
        omega
      exact if_neg hnc
    rw [List.map_congr_left hpt, List.map_id']
  refine ⟨rowsRaw.map
      (fun h => if h.id ∈ (rowsRaw.take 20).map (fun h2 => h2.id) then
        { h with isTopPick := true, aiQualityScore := some (8.5 : Rat) } else h),
    ?_, ?_, ?_, ?_, ?_, ?_, ?_, ?_⟩
  · rw [hfull]
    rfl
  · rw [hfull]
    simp only [updateProjectRow, markTopPicks, List.map_append]
    rw [hold]
  · rw [List.length_map, hlenRaw]
  · intro h hmem
    obtain ⟨raw, hraw, rfl⟩ := List.mem_map.mp hmem
    have hpr := hpropRaw raw hraw
    by_cases hc : raw.id ∈ (rowsRaw.take 20).map (fun h2 => h2.id)
    · rw [if_pos hc]
      exact ⟨hpr.1, hpr.2.1⟩
    · rw [if_neg hc]
      exact ⟨hpr.1, hpr.2.1⟩
  · intro i hi0
    have hi : i < rowsRaw.length := by simpa using hi0
    have hrow : (rowsRaw.map
        (fun h => if h.id ∈ (rowsRaw.take 20).map (fun h2 => h2.id) then
          { h with isTopPick := true, aiQualityScore := some (8.5 : Rat) } else h)).get ⟨i, hi0⟩ =
        (if (rowsRaw.get ⟨i, hi⟩).id ∈ (rowsRaw.take 20).map (fun h2 => h2.id) then
          { rowsRaw.get ⟨i, hi⟩ with isTopPick := true, aiQualityScore := some (8.5 : Rat) }
        else rowsRaw.get ⟨i, hi⟩) := by
      simp
    rw [hrow]
    by_cases hlt : i < 20
    · rw [if_pos ((hmem20 i hi).mpr hlt)]
      simp [hlt]
    · rw [if_neg (fun hmem => hlt ((hmem20 i hi).mp hmem))]
      have := (hpropRaw (rowsRaw.get ⟨i, hi⟩) (List.get_mem rowsRaw i hi)).2.2.1
      simp only [List.get_eq_getElem] at this
      simp [this, hlt]
  · intro i hi0
    have hi : i < rowsRaw.length := by simpa using hi0
    have hrow : (rowsRaw.map
        (fun h => if h.id ∈ (rowsRaw.take 20).map (fun h2 => h2.id) then
          { h with isTopPick := true, aiQualityScore := some (8.5 : Rat) } else h)).get ⟨i, hi0⟩ =
        (if (rowsRaw.get ⟨i, hi⟩).id ∈ (rowsRaw.take 20).map (fun h2 => h2.id) then
          { rowsRaw.get ⟨i, hi⟩ with isTopPick := true, aiQualityScore := some (8.5 : Rat) }
        else rowsRaw.get ⟨i, hi⟩) := by
      simp
    rw [hrow]
    by_cases hlt : i < 20
    · rw [if_pos ((hmem20 i hi).mpr hlt)]
      simp [hlt]
    · rw [if_neg (fun hmem => hlt ((hmem20 i hi).mp hmem))]
      have := (hpropRaw (rowsRaw.get ⟨i, hi⟩) (List.get_mem rowsRaw i hi)).2.2.2
      simp only [List.get_eq_getElem] at this
      simp [this, hlt]
  · have hcount := countP_of_get_decide (fun h => h.isTopPick)
      (rowsRaw.map
        (fun h => if h.id ∈ (rowsRaw.take 20).map (fun h2 => h2.id) then
          { h with isTopPick := true, aiQualityScore := some (8.5 : Rat) } else h)) 20
    rw [hcount, List.length_map, hlenRaw]
    · intro i hi0
      have hi : i < rowsRaw.length := by simpa using hi0
      have hrow : (rowsRaw.map
          (fun h => if h.id ∈ (rowsRaw.take 20).map (fun h2 => h2.id) then
            { h with isTopPick := true, aiQualityScore := some (8.5 : Rat) } else h)).get ⟨i, hi0⟩ =
          (if (rowsRaw.get ⟨i, hi⟩).id ∈ (rowsRaw.take 20).map (fun h2 => h2.id) then
            { rowsRaw.get ⟨i, hi⟩ with isTopPick := true, aiQualityScore := some (8.5 : Rat) }
          else rowsRaw.get ⟨i, hi⟩) := by
        simp
      rw [hrow]
      by_cases hlt : i < 20
      · rw [if_pos ((hmem20 i hi).mpr hlt)]
        simp [hlt]
      · rw [if_neg (fun hmem => hlt ((hmem20 i hi).mp hmem))]
        have := (hpropRaw (rowsRaw.get ⟨i, hi⟩) (List.get_mem rowsRaw i hi)).2.2.1
        simp only [List.get_eq_getElem] at this
        simp [this, hlt]
  · conv_lhs => rw [hfull]
    refine Eq.trans (findProject_after_update _ projectId userId
      { project with status := ProjectStatus.generatingFull }
      (fun p =>
        { p with
            status := ProjectStatus.completed
            totalGenerated := rowsRaw.length
            completedAt := some now })
      (fun p => ⟨rfl, rfl⟩)
      (findProject_after_update db projectId userId project
        (fun p => { p with status := ProjectStatus.generatingFull })
        (fun p => ⟨rfl, rfl⟩) hp)) ?_
    simp [hlenRaw]

/-! ## Claim C1 -/

/-- Claim C1: for every owned project whose TrainingModel is completed, a
successful `generateFullSet` over S styles with numPerStyle = n (every
generation call returning exactly n images, every storage call succeeding)
persists exactly S*n Headshot rows with isPreview = false, marks exactly the
first min(20, S*n) of them in creation order with isTopPick = true and the
fixed placeholder quality score 8.5, sets Project.status to completed, sets
completedAt, and sets totalGenerated to S*n. -/
theorem generateFullSet_full_run_spec (db : DB) (providers : Providers)
    (projectId userId : Nat) (styles : List String) (numPerStyle now : Nat)
    (project : Project) (tm : TrainingModel)
    (hwf : ∀ h ∈ db.headshots, h.id < db.nextId)
    (hp : findProject db projectId userId = some project)
    (htm : findTrainingModel db projectId = some tm)
    (hcomp : tm.status = ModelStatus.completed)
    (hgen : ∀ s ∈ styles, ∃ urls, providers.generateFull s numPerStyle = Except.ok urls ∧
        urls.length = numPerStyle) :
    ∃ rows : List Headshot,
      (generateFullSet db providers projectId userId styles numPerStyle now).res.isOk = true ∧
      (generateFullSet db providers projectId userId styles numPerStyle now).db.headshots =
        db.headshots ++ rows ∧
      rows.length = styles.length * numPerStyle ∧
      (∀ h ∈ rows, h.isPreview = false) ∧
      (∀ i (hi : i < rows.length), (rows.get ⟨i, hi⟩).isTopPick = decide (i < 20)) ∧
      (∀ i (hi : i < rows.length), i < 20 →
        (rows.get ⟨i, hi⟩).aiQualityScore = some (8.5 : Rat)) ∧
      findProject (generateFullSet db providers projectId userId styles numPerStyle now).db
          projectId userId =
        some { project with
                 status := ProjectStatus.completed
                 totalGenerated := styles.length * numPerStyle
                 completedAt := some now } := by
  obtain ⟨rows, h1, h2, h3, h4, h5, h6, _h7, h8⟩ :=
    generateFullSet_ok db providers projectId userId styles numPerStyle now project tm
      hwf hp htm hcomp hgen
  refine ⟨rows, h1, h2, h3, fun h hm => (h4 h hm).2, h5, ?_, h8⟩
  intro i hi hlt
  rw [h6 i hi, if_pos hlt]

/-- Witness for C1: two styles, two images per style. -/
theorem generateFullSet_full_run_spec_witness :
    (∀ h ∈ dbFullSet.headshots, h.id < dbFullSet.nextId) ∧
    findProject dbFullSet 1 1 = some { sampleProject with status := ProjectStatus.previewReady } ∧
    findTrainingModel dbFullSet 1 = some tmCompleted ∧
    tmCompleted.status = ModelStatus.completed ∧
    (∀ s ∈ ["CORPORATE", "CREATIVE"], ∃ urls,
      stubProviders.generateFull s 2 = Except.ok urls ∧ urls.length = 2) ∧
    (∃ rows : List Headshot,
      (generateFullSet dbFullSet stubProviders 1 1 ["CORPORATE", "CREATIVE"] 2 9).res.isOk = true ∧
      (generateFullSet dbFullSet stubProviders 1 1 ["CORPORATE", "CREATIVE"] 2 9).db.headshots =
        dbFullSet.headshots ++ rows ∧
      rows.length = ["CORPORATE", "CREATIVE"].length * 2 ∧
      (∀ h ∈ rows, h.isPreview = false) ∧
      (∀ i (hi : i < rows.length), (rows.get ⟨i, hi⟩).isTopPick = decide (i < 20)) ∧
      (∀ i (hi : i < rows.length), i < 20 →
        (rows.get ⟨i, hi⟩).aiQualityScore = some (8.5 : Rat)) ∧
      findProject (generateFullSet dbFullSet stubProviders 1 1 ["CORPORATE", "CREATIVE"] 2 9).db
          1 1 =
        some { { sampleProject with status := ProjectStatus.previewReady } with
                 status := ProjectStatus.completed
                 totalGenerated := ["CORPORATE", "CREATIVE"].length * 2
                 completedAt := some 9 }) :=
  ⟨by decide, by decide, by decide, rfl,
    fun s _ => ⟨(List.range 2).map (fun i => "img" ++ toString i), rfl, by simp⟩,
    generateFullSet_full_run_spec dbFullSet stubProviders 1 1 ["CORPORATE", "CREATIVE"] 2 9
      { sampleProject with status := ProjectStatus.previewReady } tmCompleted
      (by decide) (by decide) (by decide) rfl
      (fun s _ => ⟨(List.range 2).map (fun i => "img" ++ toString i), rfl, by simp⟩)⟩

/-! ## Claim C10 -/

/-- Claim C10: invoking `generateFullSet` again on a project that already
completed a full set marks up to 20 (exactly min 20 of the new batch size)
of the newly created headshots as additional top picks — the stored top-pick
count grows by that amount, so a project can exceed 20 top picks in total —
and overwrites totalGenerated with only this invocation's batch size, not
the cumulative headshot count. -/
theorem generateFullSet_rerun_accumulates_top_picks (db : DB) (providers : Providers)
    (projectId userId : Nat) (styles : List String) (numPerStyle now : Nat)
    (project : Project) (tm : TrainingModel)
    (hwf : ∀ h ∈ db.headshots, h.id < db.nextId)
    (hp : findProject db projectId userId = some project)
    (hprev : project.status = ProjectStatus.completed)
    (htm : findTrainingModel db projectId = some tm)
    (hcomp : tm.status = ModelStatus.completed)
    (hgen : ∀ s ∈ styles, ∃ urls, providers.generateFull s numPerStyle = Except.ok urls ∧
        urls.length = numPerStyle) :
    topPickCount (generateFullSet db providers projectId userId styles numPerStyle now).db
        projectId =
      topPickCount db projectId + min 20 (styles.length * numPerStyle) ∧
    findProject (generateFullSet db providers projectId userId styles numPerStyle now).db
        projectId userId =
      some { project with
               status := ProjectStatus.completed
               totalGenerated := styles.length * numPerStyle
               completedAt := some now } := by
  obtain ⟨rows, _h1, h2, _h3, h4, _h5, _h6, h7, h8⟩ :=
    generateFullSet_ok db providers projectId userId styles numPerStyle now project tm
      hwf hp htm hcomp hgen
  refine ⟨?_, h8⟩
  rw [topPickCount, h2, List.filter_append, List.length_append]
  congr 1
  rw [← List.countP_eq_length_filter]
  have hq : ∀ h ∈ rows,
      ((h.projectId == projectId && h.isTopPick) = true ↔ h.isTopPick = true) := by
    intro h hm
    simp [(h4 h hm).1]
  rw [List.countP_congr hq]
  exact h7

/-- Witness for C10: a second one-style two-image run on a project already
holding 20 top picks ends with 22 top picks and totalGenerated 2. -/
theorem generateFullSet_rerun_accumulates_top_picks_witness :
    (∀ h ∈ dbRerun.headshots, h.id < dbRerun.nextId) ∧
    findProject dbRerun 1 1 = some completedProject ∧
    completedProject.status = ProjectStatus.completed ∧
    findTrainingModel dbRerun 1 = some tmCompleted ∧
    tmCompleted.status = ModelStatus.completed ∧
    (∀ s ∈ ["CREATIVE"], ∃ urls,
      stubProviders.generateFull s 2 = Except.ok urls ∧ urls.length = 2) ∧
    (topPickCount (generateFullSet dbRerun stubProviders 1 1 ["CREATIVE"] 2 9).db 1 =
        topPickCount dbRerun 1 + min 20 (["CREATIVE"].length * 2) ∧
     findProject (generateFullSet dbRerun stubProviders 1 1 ["CREATIVE"] 2 9).db 1 1 =
       some { completedProject with
                status := ProjectStatus.completed
                totalGenerated := ["CREATIVE"].length * 2
                completedAt := some 9 }) :=
  ⟨by decide, by decide, rfl, by decide, rfl,
    fun s _ => ⟨(List.range 2).map (fun i => "img" ++ toString i), rfl, by simp⟩,
    generateFullSet_rerun_accumulates_top_picks dbRerun stubProviders 1 1 ["CREATIVE"] 2 9
      completedProject tmCompleted (by decide) (by decide) rfl (by decide) rfl
      (fun s _ => ⟨(List.range 2).map (fun i => "img" ++ toString i), rfl, by simp⟩)⟩

end HeadshotStudio
